import Mathlib

/-!
Verification of the seekable-zstd writer (`pkg/writer.go`).

The embedding models bytes as natural numbers and byte slices as `List Nat`.
The injected ZSTD encoder, the sink, and the per-frame checksum function are
parameters of a `WriterConfig`; the mutable fields of `writerImpl`
(`frameEntries`, the `sync.Once`, and the bytes pushed to the sink) form a
`WriterState` threaded explicitly through each operation.

`writerImpl.Write`, `writerImpl.Close`, `writerImpl.WriteMany`,
`writerImpl.writeSeekTable` and `NewWriter` are translated directly from
`pkg/writer.go`.  `writerImpl.Encode` and `writerImpl.EndStream` are called
from that file but their bodies are not part of the sources at hand, so they
are modelled from the specification (sections 4.1 and 4.2).
-/

namespace Seekable

/-- Errors the writer can surface.  `codecError` stands for an injected
encoder failure, `ioError` for a sink failure, `shortWrite n total` for a
partial sink write, `configError` for a construction-time failure, and
`closedWriter` for the close-state violation named by the specification. -/
inductive WErr where
  | codecError : WErr
  | ioError : WErr
  | shortWrite : Nat → Nat → WErr
  | configError : WErr
  | closedWriter : WErr
  deriving DecidableEq, Repr

/-- One record of the in-memory seek table, mirroring `seekTableEntry`:
compressed size, decompressed size, and the optional low 32 bits of the
xxHash-64 of the decompressed content. -/
structure SeekTableEntry where
  compressedSize : Nat
  decompressedSize : Nat
  checksum : Option Nat
  deriving DecidableEq, Repr

/-- The injected collaborators of `writerImpl` together with the stream-wide
checksum switch.  The sink is modelled by response oracles: given the blocks
already pushed to the sink and the block being offered, `writeFrameResp`
(resp. `writeSeekTableResp`) yields the pair `(n, err)` that the Go calls
`env.WriteFrame` / `env.WriteSeekTable` would return. -/
structure WriterConfig where
  encodeAll : List Nat → Except WErr (List Nat)
  writeFrameResp : List (List Nat) → List Nat → Nat × Option WErr
  writeSeekTableResp : List (List Nat) → List Nat → Nat × Option WErr
  checksums : Bool
  xxh64low32 : List Nat → Nat

/-- The mutable state of `writerImpl`: the in-memory entry list, whether the
`sync.Once` guarding `Close` has fired, and the blocks handed to the sink so
far (each `WriteFrame` / `WriteSeekTable` call appends its argument). -/
structure WriterState where
  frameEntries : List SeekTableEntry
  closed : Bool
  sunk : List (List Nat)
  deriving DecidableEq, Repr

/-- The state a fresh writer starts in. -/
def initialWriterState : WriterState :=
  { frameEntries := [], closed := false, sunk := [] }

/-- Modelled from the spec: `writerImpl.Encode` is called by `Write` but its
body is not among the sources at hand.  Section 4.1: the input is passed
through the injected encoder (a failure is surfaced), an entry recording
`decompressed_size = len(src)`, `compressed_size = len(dst)` and, when
checksums are enabled, the low 32 bits of the xxHash-64 of the decompressed
content is appended to the in-memory entry list; section 9 requires inputs
larger than 2^32 - 1 bytes to be rejected as a configuration error. -/
def Encode (cfg : WriterConfig) (st : WriterState) (src : List Nat) :
    Except WErr (List Nat × WriterState) :=
  if src.length ≥ 2 ^ 32 then
    .error .configError
  else
    match cfg.encodeAll src with
    | .error e => .error e
    | .ok dst =>
        let entry : SeekTableEntry :=
          { compressedSize := dst.length
            decompressedSize := src.length
            checksum :=
              if cfg.checksums then some (cfg.xxh64low32 src % 2 ^ 32) else none }
        .ok (dst, { st with frameEntries := st.frameEntries ++ [entry] })

/-- `writerImpl.Write`: encode the chunk as one frame, push it to the sink,
fail on a sink error or a partial write, otherwise report `len(src)`. -/
def Write (cfg : WriterConfig) (st : WriterState) (src : List Nat) :
    (Nat × Option WErr) × WriterState :=
  match Encode cfg st src with
  | .error e => ((0, some e), st)
  | .ok (dst, st1) =>
      let resp := cfg.writeFrameResp st1.sunk dst
      let st2 := { st1 with sunk := st1.sunk ++ [dst] }
      match resp.2 with
      | some e => ((0, some e), st2)
      | none =>
          if resp.1 ≠ dst.length then
            ((0, some (.shortWrite resp.1 dst.length)), st2)
          else
            ((src.length, none), st2)

/-- Little-endian serialization of a 32-bit value, as in the on-disk format. -/
def u32le (v : Nat) : List Nat :=
  [v % 256, v / 256 % 256, v / 2 ^ 16 % 256, v / 2 ^ 24 % 256]

/-- One serialized seek-table entry: 8 bytes without checksums, 12 with. -/
def serializeEntry (checksums : Bool) (e : SeekTableEntry) : List Nat :=
  u32le e.compressedSize ++ u32le e.decompressedSize ++
    (if checksums then u32le (e.checksum.getD 0) else [])

/-- The serialized skippable frame holding the seek table (spec section 4.2):
skippable magic, user-data length, the entries in stream order, then the
footer (frame count, descriptor byte with bit 7 iff checksums, seekable
magic). -/
def serializeSeekTable (checksums : Bool) (entries : List SeekTableEntry) :
    List Nat :=
  let body := (entries.map (serializeEntry checksums)).flatten
  let footer :=
    u32le entries.length ++ [if checksums then 128 else 0] ++ u32le 0x8F92EAB1
  u32le 0x184D2A5E ++ u32le (body.length + 9) ++ body ++ footer

/-- Modelled from the spec: `writerImpl.EndStream` is called by
`writeSeekTable` but its body is not among the sources at hand.  Section 4.2
describes the serialization as one contiguous block emitted at close; the
serialization direction lists no failure mode, so the model always
succeeds. -/
def EndStream (cfg : WriterConfig) (st : WriterState) :
    Except WErr (List Nat) :=
  .ok (serializeSeekTable cfg.checksums st.frameEntries)

/-- `writerImpl.writeSeekTable`: serialize via `EndStream` and push the block
through `env.WriteSeekTable`, surfacing only the sink's error (the byte count
is ignored — no short-write check on this path, as in the source). -/
def writeSeekTable (cfg : WriterConfig) (st : WriterState) :
    Option WErr × WriterState :=
  match EndStream cfg st with
  | .error e => (some e, st)
  | .ok bytes =>
      let resp := cfg.writeSeekTableResp st.sunk bytes
      (resp.2, { st with sunk := st.sunk ++ [bytes] })

/-- `writerImpl.Close`: `sync.Once` semantics — the first call runs
`writeSeekTable` and reports its error; every later call does nothing and
returns no error. -/
def Close (cfg : WriterConfig) (st : WriterState) :
    Option WErr × WriterState :=
  if st.closed then
    (none, st)
  else
    let r := writeSeekTable cfg st
    (r.1, { r.2 with closed := true })

/-- One pull from a `FrameSource`: the Go callback returns a slice and an
error; a `none` slice with no error is the end sentinel. -/
def Pull : Type := Option (List Nat) × Option WErr

/-- The loop body of `writerImpl.WriteMany`: pull a frame, stop with the
source's error if it failed, stop successfully at the `nil` sentinel,
otherwise `Write` the frame and stop at the first write error.  The source is
modelled as the finite list of its successive results; an exhausted list
behaves as the sentinel. -/
def writeManyLoop (cfg : WriterConfig) (st : WriterState) :
    List Pull → Option WErr × WriterState
  | [] => (none, st)
  | p :: rest =>
      match p.2 with
      | some e => (some e, st)
      | none =>
          match p.1 with
          | none => (none, st)
          | some frame =>
              let r := Write cfg st frame
              match r.1.2 with
              | some e => (some e, r.2)
              | none => writeManyLoop cfg r.2 rest

/-- A `WriteManyOption` mutates the `writeManyOptions` record, which holds
only the concurrency field; `WithConcurrency c` sets it to `c`. -/
def WithConcurrency (c : Nat) : Nat → Nat := fun _ => c

/-- Models `runtime.GOMAXPROCS(0)`, the default concurrency. -/
def GOMAXPROCS : Nat := 1

/-- `writerImpl.WriteMany`: fold the options into the concurrency setting —
which the body then never consults ("Non-concurrent implementation for
now") — and run the sequential pull-and-write loop. -/
def WriteMany (cfg : WriterConfig) (options : List (Nat → Nat))
    (st : WriterState) (source : List Pull) : Option WErr × WriterState :=
  let _concurrency := options.foldl (fun acc o => o acc) GOMAXPROCS
  writeManyLoop cfg st source

/-- The sequential reference loop named by the claim about `WriteMany`: call
`Write` once per yielded frame until the source yields the sentinel,
returning the first error from the source or from a write.  Stated from the
claim's words, to be compared with `WriteMany` as translated from the
source. -/
def sequentialWriteLoop (cfg : WriterConfig) (st : WriterState) :
    List Pull → Option WErr × WriterState
  | [] => (none, st)
  | p :: rest =>
      match p.2 with
      | some e => (some e, st)
      | none =>
          match p.1 with
          | none => (none, st)
          | some frame =>
              let r := Write cfg st frame
              match r.1.2 with
              | some e => (some e, r.2)
              | none => sequentialWriteLoop cfg r.2 rest

/-- The fields of `writerImpl` that `NewWriter` populates: the stored encoder
(an interface value, hence possibly nil) and the environment (an option set
by options, else a wrapper around the passed sink, identified here by a
numeric tag). -/
structure WriterInit where
  enc : Option (List Nat → List Nat)
  env : Option Nat

/-- A writer construction option, as accepted by `NewWriter`. -/
def WOption : Type := WriterInit → Except WErr WriterInit

/-- `NewWriter`: store the encoder, run the options in order stopping at the
first failing one, and default the environment to a wrapper around the passed
sink when no option set it.  No validation of the encoder happens. -/
def NewWriter (w : Nat) (encoder : Option (List Nat → List Nat))
    (opts : List WOption) : Except WErr WriterInit :=
  match opts.foldlM (fun sw o => o sw) { enc := encoder, env := none } with
  | .error e => .error e
  | .ok sw =>
      .ok (if sw.env.isNone then { sw with env := some w } else sw)

/-! Concrete configurations used to exercise the model on closed inputs: a
well-behaved identity encoder over a sink that accepts everything, an encoder
that always fails, a sink that always fails, and a sink that accepts only a
strict prefix of every block. -/

/-- An injected identity encoder with a sink accepting every block whole. -/
def idEncoderCfg : WriterConfig :=
  { encodeAll := fun src => .ok src
    writeFrameResp := fun _ b => (b.length, none)
    writeSeekTableResp := fun _ b => (b.length, none)
    checksums := false
    xxh64low32 := fun _ => 0 }

/-- A configuration whose injected encoder always fails. -/
def failEncCfg : WriterConfig :=
  { idEncoderCfg with encodeAll := fun _ => .error .codecError }

/-- A configuration whose sink reports an I/O error on every frame. -/
def failSinkCfg : WriterConfig :=
  { idEncoderCfg with writeFrameResp := fun _ _ => (0, some .ioError) }

/-- A configuration whose sink claims to accept zero bytes of every frame,
reporting no error: the partial-write case. -/
def shortSinkCfg : WriterConfig :=
  { idEncoderCfg with writeFrameResp := fun _ _ => (0, none) }

/-- Helper: under a total encoder and a sink that accepts every block in
full, `Write` succeeds with count `src.length` and pushes exactly the encoded
block. -/
theorem write_perfect (cfg : WriterConfig) (g : List Nat → List Nat)
    (hEnc : ∀ b, cfg.encodeAll b = .ok (g b))
    (hSink : ∀ s b, cfg.writeFrameResp s b = (b.length, none))
    (st : WriterState) (src : List Nat) (hsmall : src.length < 2 ^ 32) :
    (Write cfg st src).1 = (src.length, none) ∧
      (Write cfg st src).2.sunk = st.sunk ++ [g src] := by
  have hbig : ¬ (4294967296 ≤ src.length) := by omega
  simp [Write, Encode, hbig, hEnc, hSink]

/-- C1: for every input byte slice `src`, when the encoder succeeds (the
frame codec yields an encoded frame `dst`) and the sink accepts the full
encoded frame, `Write src` returns `len(src)` — the length of the original
uncompressed input, not of the compressed frame — together with no error. -/
theorem C1_write_returns_input_length (cfg : WriterConfig) (st st1 : WriterState)
    (src dst : List Nat)
    (henc : Encode cfg st src = .ok (dst, st1))
    (hsink : cfg.writeFrameResp st1.sunk dst = (dst.length, none)) :
    (Write cfg st src).1 = (src.length, none) := by
  simp [Write, henc, hsink]

/-- Witness for C1 at the concrete input `[3, 5]` under the identity encoder
and the all-accepting sink: `Write` reports 2 bytes written and no error. -/
theorem C1_witness :
    (Write idEncoderCfg initialWriterState [3, 5]).1 = (2, none) :=
  C1_write_returns_input_length idEncoderCfg initialWriterState
    { initialWriterState with
        frameEntries := [{ compressedSize := 2, decompressedSize := 2, checksum := none }] }
    [3, 5] [3, 5] rfl rfl

/-- C2: whenever the sink's `WriteFrame` reports accepting fewer bytes than
the full encoded frame, `Write` returns a byte count of 0 together with an
error — never partial success; and when the sink reported no error of its
own, that error is precisely the partial-write (ShortWrite) failure. -/
theorem C2_partial_sink_write_is_error (cfg : WriterConfig)
    (st st1 : WriterState) (src dst : List Nat)
    (henc : Encode cfg st src = .ok (dst, st1))
    (hn : (cfg.writeFrameResp st1.sunk dst).1 ≠ dst.length) :
    ((Write cfg st src).1).1 = 0 ∧ ((Write cfg st src).1).2.isSome ∧
      ((cfg.writeFrameResp st1.sunk dst).2 = none →
        (Write cfg st src).1 =
          (0, some (.shortWrite (cfg.writeFrameResp st1.sunk dst).1 dst.length))) := by
  rcases hr : cfg.writeFrameResp st1.sunk dst with ⟨n, err⟩
  rw [hr] at hn
  simp only at hn
  cases err with
  | none => simp [Write, henc, hr, hn]
  | some e => simp [Write, henc, hr]

/-- Witness for C2: a sink claiming to accept 0 of the 1 encoded bytes makes
`Write` report `(0, ShortWrite 0 1)`. -/
theorem C2_witness :
    ((Write shortSinkCfg initialWriterState [7]).1).1 = 0 ∧
      ((Write shortSinkCfg initialWriterState [7]).1).2.isSome ∧
      ((shortSinkCfg.writeFrameResp
            [] [7]).2 = none →
        (Write shortSinkCfg initialWriterState [7]).1 =
          (0, some (.shortWrite (shortSinkCfg.writeFrameResp [] [7]).1 1))) :=
  C2_partial_sink_write_is_error shortSinkCfg initialWriterState
    { initialWriterState with
        frameEntries := [{ compressedSize := 1, decompressedSize := 1, checksum := none }] }
    [7] [7] rfl (by decide)

/-- C7: an encoder failure during `Write` is surfaced to the caller as-is and
the call makes no sink append at all (the whole state, sink included, is
exactly as before the call); a sink error from `WriteFrame` is likewise
returned to the caller unchanged and unretried. -/
theorem C7_write_surfaces_failures (cfg : WriterConfig) (st : WriterState)
    (src : List Nat) :
    (∀ e, Encode cfg st src = .error e → Write cfg st src = ((0, some e), st)) ∧
      (∀ dst st1 e, Encode cfg st src = .ok (dst, st1) →
        (cfg.writeFrameResp st1.sunk dst).2 = some e →
        (Write cfg st src).1 = (0, some e)) := by
  constructor
  · intro e henc
    simp [Write, henc]
  · intro dst st1 e henc hr
    rcases hresp : cfg.writeFrameResp st1.sunk dst with ⟨n, err⟩
    rw [hresp] at hr
    simp only at hr
    subst hr
    simp [Write, henc, hresp]

/-- Witness for C7: with an always-failing encoder, `Write [1]` returns the
codec error and leaves the state untouched; with an always-failing sink, it
returns the sink's I/O error with count 0. -/
theorem C7_witness :
    Write failEncCfg initialWriterState [1] =
        ((0, some .codecError), initialWriterState) ∧
      (Write failSinkCfg initialWriterState [1]).1 = (0, some .ioError) :=
  ⟨(C7_write_surfaces_failures failEncCfg initialWriterState [1]).1 .codecError rfl,
   (C7_write_surfaces_failures failSinkCfg initialWriterState [1]).2 [1]
      { initialWriterState with
          frameEntries := [{ compressedSize := 1, decompressedSize := 1, checksum := none }] }
      .ioError rfl rfl⟩

/-- C9: on every failing path of `Write` — encoder failure, sink error, or
partial sink write — the returned byte count is exactly 0. -/
theorem C9_failing_write_count_zero (cfg : WriterConfig) (st : WriterState)
    (src : List Nat) (h : ((Write cfg st src).1).2 ≠ none) :
    ((Write cfg st src).1).1 = 0 := by
  rcases henc : Encode cfg st src with e | ⟨dst, st1⟩
  · simp [Write, henc]
  · rcases hresp : cfg.writeFrameResp st1.sunk dst with ⟨n, err⟩
    cases err with
    | some e => simp [Write, henc, hresp]
    | none =>
        by_cases hn : n = dst.length
        · simp [Write, henc, hresp, hn] at h
        · simp [Write, henc, hresp, hn]

/-- Witness for C9 at the always-failing encoder on input `[1]`. -/
theorem C9_witness : ((Write failEncCfg initialWriterState [1]).1).1 = 0 :=
  C9_failing_write_count_zero failEncCfg initialWriterState [1] (by decide)

/-- C3: `Close` is idempotent — on a not-yet-closed writer the first call
appends the serialized seek table to the sink exactly once, and every
subsequent call performs no sink write, changes nothing, and returns no
error, so repeated calls produce the same stream as a single call. -/
theorem C3_close_idempotent (cfg : WriterConfig) (st : WriterState)
    (h : st.closed = false) :
    (Close cfg st).2.sunk =
        st.sunk ++ [serializeSeekTable cfg.checksums st.frameEntries] ∧
      (Close cfg st).2.closed = true ∧
      Close cfg (Close cfg st).2 = (none, (Close cfg st).2) := by
  simp [Close, writeSeekTable, EndStream, h]

/-- Witness for C3 on a fresh writer under the identity configuration. -/
theorem C3_witness :
    (Close idEncoderCfg initialWriterState).2.sunk =
        initialWriterState.sunk ++
          [serializeSeekTable idEncoderCfg.checksums
              initialWriterState.frameEntries] ∧
      (Close idEncoderCfg initialWriterState).2.closed = true ∧
      Close idEncoderCfg (Close idEncoderCfg initialWriterState).2 =
        (none, (Close idEncoderCfg initialWriterState).2) :=
  C3_close_idempotent idEncoderCfg initialWriterState rfl

/-- C4 counterexample: the claim says a `Write` after `Close` fails with a
ClosedWriter error and appends nothing to the sink.  On the code, after
closing a fresh writer under the identity configuration, `Write [7]` returns
`(1, no error)` and grows the sink by one block. -/
theorem C4_counterexample :
    ((Write idEncoderCfg (Close idEncoderCfg initialWriterState).2 [7]).1 =
        (1, none)) ∧
      (Write idEncoderCfg
            (Close idEncoderCfg initialWriterState).2 [7]).2.sunk.length =
        (Close idEncoderCfg initialWriterState).2.sunk.length + 1 := by
  constructor
  · rfl
  · rfl

/-- C4 amended: the writer has no Open-to-Closed guard on `Write` — the
result of `Write` is entirely independent of the closed flag, so a write
after `Close` behaves exactly like any other write (encoding and appending a
frame after the seek table) instead of failing with ClosedWriter. -/
theorem C4_write_ignores_closed_flag (cfg : WriterConfig) (st : WriterState)
    (src : List Nat) (b : Bool) :
    Write cfg { st with closed := b } src =
      ((Write cfg st src).1, { (Write cfg st src).2 with closed := b }) := by
  by_cases hbig : 4294967296 ≤ src.length
  · simp [Write, Encode, hbig]
  · rcases henc : cfg.encodeAll src with e | dst
    · simp [Write, Encode, hbig, henc]
    · rcases hresp : cfg.writeFrameResp st.sunk dst with ⟨n, err⟩
      cases err with
      | some e => simp [Write, Encode, hbig, henc, hresp]
      | none =>
          by_cases hn : n = dst.length
          · simp [Write, Encode, hbig, henc, hresp, hn]
          · simp [Write, Encode, hbig, henc, hresp, hn]

/-- C5: a successful `Write src` — the empty slice included — emits exactly
one encoded frame to the sink and appends exactly one entry (recording
`decompressed_size = len(src)` and the frame's compressed size) to the
in-memory entry list: no splitting, no coalescing. -/
theorem C5_one_frame_one_entry (cfg : WriterConfig) (st : WriterState)
    (src : List Nat) (hs : ((Write cfg st src).1).2 = none) :
    ∃ dst, (Write cfg st src).2.sunk = st.sunk ++ [dst] ∧
      ∃ entry, (Write cfg st src).2.frameEntries = st.frameEntries ++ [entry] ∧
        entry.decompressedSize = src.length ∧
        entry.compressedSize = dst.length := by
  by_cases hbig : 4294967296 ≤ src.length
  · simp [Write, Encode, hbig] at hs
  · rcases henc : cfg.encodeAll src with e | dst
    · simp [Write, Encode, hbig, henc] at hs
    · rcases hresp : cfg.writeFrameResp st.sunk dst with ⟨n, err⟩
      cases err with
      | some e => simp [Write, Encode, hbig, henc, hresp] at hs
      | none =>
          by_cases hn : n = dst.length
          · refine ⟨dst, ?_, ?_⟩
            · simp [Write, Encode, hbig, henc, hresp, hn]
            · refine ⟨{ compressedSize := dst.length
                        decompressedSize := src.length
                        checksum := if cfg.checksums then
                          some (cfg.xxh64low32 src % 2 ^ 32) else none },
                ?_, rfl, rfl⟩
              simp [Write, Encode, hbig, henc, hresp, hn]
          · simp [Write, Encode, hbig, henc, hresp, hn] at hs

/-- Witness for C5 at the zero-length input: writing the empty slice under
the identity configuration succeeds and yields one (zero-length) frame and
one entry. -/
theorem C5_witness :
    ∃ dst,
      (Write idEncoderCfg initialWriterState []).2.sunk =
          initialWriterState.sunk ++ [dst] ∧
        ∃ entry,
          (Write idEncoderCfg initialWriterState []).2.frameEntries =
              initialWriterState.frameEntries ++ [entry] ∧
            entry.decompressedSize = 0 ∧
            entry.compressedSize = dst.length :=
  C5_one_frame_one_entry idEncoderCfg initialWriterState [] rfl

/-- C6: for a source that yields the frames `fs` and then the `nil`
sentinel (with arbitrary further pulls behind it), under a total encoder and
a sink accepting every block in full, `WriteMany` stops successfully exactly
at the sentinel — never consuming the pulls behind it — and the encoded
frames reach the sink in precisely the order the source yielded them. -/
theorem C6_writeMany_order (cfg : WriterConfig) (g : List Nat → List Nat)
    (hEnc : ∀ b, cfg.encodeAll b = .ok (g b))
    (hSink : ∀ s b, cfg.writeFrameResp s b = (b.length, none))
    (opts : List (Nat → Nat)) (st : WriterState) (fs : List (List Nat))
    (rest : List Pull) (hsmall : ∀ b ∈ fs, b.length < 2 ^ 32) :
    (WriteMany cfg opts st
          (fs.map (fun f => ((some f, none) : Pull)) ++
            ((none, none) : Pull) :: rest)).1 = none ∧
      (WriteMany cfg opts st
          (fs.map (fun f => ((some f, none) : Pull)) ++
            ((none, none) : Pull) :: rest)).2.sunk = st.sunk ++ fs.map g := by
  rw [WriteMany]
  induction fs generalizing st with
  | nil => simp [writeManyLoop]
  | cons f fs ih =>
      have hf : f.length < 2 ^ 32 := hsmall f (by simp)
      have hw := write_perfect cfg g hEnc hSink st f hf
      have hfs : ∀ b ∈ fs, b.length < 2 ^ 32 := fun b hb => hsmall b (by simp [hb])
      have hrec := ih (Write cfg st f).2 hfs
      rw [List.map_cons, List.cons_append, writeManyLoop]
      simp only [hw.1]
      refine ⟨hrec.1, ?_⟩
      rw [hrec.2, hw.2, List.map_cons]
      simp

/-- Witness for C6: two frames then the sentinel, with one further pull
behind the sentinel, under the identity configuration. -/
theorem C6_witness :
    (WriteMany idEncoderCfg [] initialWriterState
          ([[1], [2, 3]].map (fun f => ((some f, none) : Pull)) ++
            ((none, none) : Pull) :: [((some [9], none) : Pull)])).1 = none ∧
      (WriteMany idEncoderCfg [] initialWriterState
          ([[1], [2, 3]].map (fun f => ((some f, none) : Pull)) ++
            ((none, none) : Pull) :: [((some [9], none) : Pull)])).2.sunk =
        initialWriterState.sunk ++ [[1], [2, 3]].map id :=
  C6_writeMany_order idEncoderCfg id (fun _ => rfl) (fun _ _ => rfl) []
    initialWriterState [[1], [2, 3]] [((some [9], none) : Pull)] (by decide)

/-- C8 counterexample: the claim says `NewWriter` with a missing encoder
fails at construction with a ConfigError.  On the code, `NewWriter` applied
to sink `0`, no encoder and no options returns a writer and no error. -/
theorem C8_counterexample :
    NewWriter 0 none [] ≠ .error .configError ∧
      (NewWriter 0 none []).isOk = true := by
  constructor
  · intro h
    exact Except.noConfusion h
  · rfl

/-- C8 amended: `NewWriter` performs no encoder validation — for every sink
and every encoder argument, missing included, calling it with no options
succeeds, returning a writer that merely stores the given encoder (a missing
encoder can only fail later, at use). -/
theorem C8_newWriter_skips_encoder_check (w : Nat)
    (encoder : Option (List Nat → List Nat)) :
    NewWriter w encoder [] = .ok { enc := encoder, env := some w } := rfl

/-- C10: `WriteMany` is observationally equivalent to the sequential loop
that calls `Write` once per yielded frame until the source yields the
sentinel, returning the first error from the source or a write; the options
list — `WithConcurrency` included — has no effect on the result. -/
theorem C10_writeMany_is_sequential (cfg : WriterConfig)
    (opts : List (Nat → Nat)) (st : WriterState) (source : List Pull) :
    WriteMany cfg opts st source = sequentialWriteLoop cfg st source := by
  rw [WriteMany]
  induction source generalizing st with
  | nil => rfl
  | cons p rest ih =>
      rw [writeManyLoop, sequentialWriteLoop]
      rcases p with ⟨frame, err⟩
      cases err with
      | some e => rfl
      | none =>
          cases frame with
          | none => rfl
          | some f =>
              simp only []
              cases (Write cfg st f).1.2 with
              | some e => rfl
              | none => exact ih (Write cfg st f).2

end Seekable
